import Mathlib

/-!
# Shallow embedding of `lalamove/go-retryablehttp` (`client.go`)

This file models the retry orchestration engine of the repository:

* `DefaultRetryPolicy` — the default `CheckRetry` callback;
* `Config.init` — default substitution at construction time;
* `LinearJitterBackoff` — the linear-with-jitter backoff strategy;
* `Client.Do` — the attempt/retry loop, modelled as the well-founded
  recursion `doLoop` over the attempt index, threading the `resp`/`err`
  variables of the Go loop and recording an event trace for the
  observable side effects (body rewinds, transport calls, drains,
  backoff sleeps, body closes, error-handler invocation);
* the payload classification performed by `NewRequest`.

Modelling conventions:

* Go `error` values are `Option Err` (`none` = `nil`); the giving-up
  error built by `fmt.Errorf` is modelled structurally as
  `Err.givingUp` carrying exactly the data in the format string.
* `time.Duration` (an `int64` of nanoseconds) is modelled as `Int`.
* A Go callback that would dereference a `nil` response panics; the
  model makes `CheckRetry` return an `Option`, with `none` standing
  for that panic, and `doLoop` propagates it as a `none` outcome.
* Collaborators that only perform I/O (logger, metrics counters and
  timers, tracing span, request/response log hooks, the request
  modifier) never influence control flow or the returned pair, and are
  omitted from the model.
-/

namespace Retryablehttp

/-- `time.Duration`: `int64` nanoseconds. Durations in the claims stay far
below `2^63`, so the model uses unbounded `Int`. -/
abbrev Duration := Int

/-- The slice of `*http.Response` the engine inspects: its status code.
The body is tracked through the event trace, not as data. -/
structure Response where
  statusCode : Int
deriving DecidableEq, Repr

/-- Go `error` values that appear in the engine. `simple` stands for any
opaque collaborator error (context, transport, body, handler); the
giving-up error of `Client.Do` is kept structural because the spec talks
about the data it carries. -/
inductive Err where
  | simple (tag : String)
  | givingUp (method url : String) (attempts : Int)
deriving DecidableEq, Repr

/-- `CheckRetry func(ctx, resp, err) (bool, error)`. The context is
abstracted to the value of `ctx.Err()` at call time (first argument).
The result is `none` when the Go function would panic (nil-response
dereference in `DefaultRetryPolicy`). -/
abbrev CheckRetryT := Option Err → Option Response → Option Err → Option (Bool × Option Err)

/-- `Backoff func(min, max, attemptNum, resp) time.Duration`. -/
abbrev BackoffT := Duration → Duration → Nat → Option Response → Duration

/-- `ErrorHandler func(resp, err, numTries) (*http.Response, error)`. -/
abbrev ErrorHandlerT := Option Response → Option Err → Int → Option Response × Option Err

/-- `defaultRetryWaitMin = 1 * time.Second`. -/
def defaultRetryWaitMin : Duration := 1000000000

/-- `defaultRetryWaitMax = 30 * time.Second`. -/
def defaultRetryWaitMax : Duration := 30000000000

/-- `defaultRetryMax = 4`. -/
def defaultRetryMax : Int := 4

/-- `DefaultRetryPolicy(ctx, resp, err)`: no retry once `ctx.Err()` is
non-nil (the context error overrides); retry on a transport error;
otherwise retry iff `resp.StatusCode == 0 || (resp.StatusCode >= 500 &&
resp.StatusCode != 501)`. When both `resp` and `err` are nil the Go code
dereferences a nil pointer; the model returns `none` there. -/
def DefaultRetryPolicy : CheckRetryT := fun ctxErr resp err =>
  match ctxErr with
  | some ce => some (false, some ce)
  | none =>
    match err with
    | some e => some (true, some e)
    | none =>
      match resp with
      | some r =>
        if r.statusCode = 0 ∨ (500 ≤ r.statusCode ∧ r.statusCode ≠ 501) then
          some (true, none)
        else
          some (false, none)
      | none => none

/-- `LinearJitterBackoff(min, max, attemptNum, resp)`. The function first
increments `attemptNum`. If `max <= min` it returns
`min * attemptNum`. Otherwise it draws `rand.Float64()` — modelled as an
exact rational `draw` supplied as an argument — computes
`jitter := draw * float64(max-min)`, truncates it to an integer
(`int64(jitter)`, a floor since `jitter ≥ 0`), adds `min`, and
multiplies by the incremented attempt number. The float arithmetic on
the draw is modelled exactly over `ℚ`. -/
def LinearJitterBackoff (min max : Duration) (attemptNum : Nat) (draw : ℚ) : Duration :=
  let attemptNum := attemptNum + 1
  if max ≤ min then
    min * attemptNum
  else
    let jitterMin : Int := ⌊draw * ((max : ℚ) - (min : ℚ))⌋ + min
    jitterMin * attemptNum

/-- The fields of `Config` the engine reads, plus nil-ness of the
pluggable callbacks. `Logger`, `HttpClient`, `Metrics` and the log/modify
hooks are I/O collaborators and are not modelled. -/
structure Config where
  RetryMax : Int
  RetryWaitMin : Duration
  RetryWaitMax : Duration
  CheckRetry : Option CheckRetryT
  Backoff : Option BackoffT
  ErrorHandler : Option ErrorHandlerT
deriving Inhabited

/-- `DefaultBackoff(min, max, attemptNum, resp)`. The source computes
`mult := math.Pow(2, float64(attemptNum)) * float64(min)` in `float64`,
truncates to `sleep := time.Duration(mult)`, and clamps to `max` when
`float64(sleep) != mult || sleep > max`. For `0 ≤ min < 2^53` (every
duration up to about 104 days) the float computation of `2^n * min` is
exact while it stays inside `int64`, and once it leaves `int64` the
round-trip guard `float64(sleep) != mult` fires — and then `max`, being
an `int64`, is below the product, so clamping to `max` agrees with
comparing the exact product against `max`. The model therefore computes
in exact integer arithmetic: the exponentiation, then the clamp. -/
def DefaultBackoff : BackoffT := fun min max attemptNum _ =>
  let mult := 2 ^ attemptNum * min
  if mult > max then max else mult

/-- `(c *Config) init()`: substitutes defaults. Translated line by line
from the source, including the test of `RetryMax` (not `RetryWaitMin`)
guarding the `RetryWaitMin` default. The `Logger`/`HttpClient` lines are
I/O-only and omitted; the Go method always returns a nil error, so the
model returns the updated `Config` directly. -/
def Config.init (c : Config) : Config :=
  let c := if c.RetryMax ≤ 0 then { c with RetryWaitMin := defaultRetryWaitMin } else c
  let c := if c.RetryWaitMax ≤ 0 then { c with RetryWaitMax := defaultRetryWaitMax } else c
  let c := if c.CheckRetry.isNone then { c with CheckRetry := some DefaultRetryPolicy } else c
  let c := if c.Backoff.isNone then { c with Backoff := some DefaultBackoff } else c
  let c := if c.RetryMax ≤ 0 then { c with RetryMax := defaultRetryMax } else c
  c

/-- The request data `Client.Do` reads: method and URL (reported by the
giving-up error), and the stored body factory. `body = some obtain`
models a non-nil `req.body`; `obtain i` is the error outcome of the
factory invocation at attempt `i` (`none` = a fresh stream was bound to
the outgoing request). -/
structure Request where
  method : String
  url : String
  body : Option (Nat → Option Err)

/-- Behavior of the external collaborators across attempts:
`transport i` is the `(resp, err)` pair `c.HttpClient.Do` produces at
attempt `i`; `ctxErr i` is the value of `req.Context().Err()` the retry
policy observes at attempt `i` (cancellation may fire mid-run). -/
structure Env where
  transport : Nat → Option Response × Option Err
  ctxErr : Nat → Option Err

/-- Observable side effects of one `Client.Do` run, in order:
body rewind, transport invocation, `CheckRetry` consultation, bounded
drain-and-close of a response body before a retry, backoff computation,
sleep, `resp.Body.Close()` on the default exhausted path, and
`ErrorHandler` invocation (carrying its `numTries` argument). -/
inductive Event where
  | bodyObtain (i : Nat)
  | transportCall (i : Nat)
  | policyCheck (i : Nat)
  | drain (i : Nat)
  | backoffCompute (i : Nat) (wait : Duration)
  | sleep (wait : Duration)
  | closeBody
  | errorHandlerCall (numTries : Int)
deriving DecidableEq, Repr

/-- The client fields `Do` reads. `Do` is specified for clients built by
`New`, where `Config.init` guarantees `CheckRetry` and `Backoff` are
non-nil, so they are total fields here; `ErrorHandler` may be absent. -/
structure Client where
  RetryMax : Int
  RetryWaitMin : Duration
  RetryWaitMax : Duration
  CheckRetry : CheckRetryT
  Backoff : BackoffT
  ErrorHandler : Option ErrorHandlerT

/-- The code after the loop (the `break` target of `Client.Do`): either
the configured `ErrorHandler` is invoked once with the last
`(resp, err)` and `RetryMax+1`, or by default the last response body
(if any) is closed and `(nil, givingUp)` is returned. -/
def onExhausted (c : Client) (req : Request) (resp : Option Response) (err : Option Err) :
    List Event × (Option Response × Option Err) :=
  match c.ErrorHandler with
  | some h => ([Event.errorHandlerCall (c.RetryMax + 1)], h resp err (c.RetryMax + 1))
  | none =>
    ((match resp with | some _ => [Event.closeBody] | none => []),
     (none, some (Err.givingUp req.method req.url (c.RetryMax + 1))))

/-- The `for i := 0; ; i++` loop of `Client.Do`, from attempt `i`, with
the loop-carried `resp`/`err` variables as `lastResp`/`lastErr`. At each
attempt: rewind the body when present (a factory error returns the
outer `(resp, err-from-factory)` pair immediately); invoke the
transport; consult `CheckRetry`; on "do not retry" return the attempt's
response with `checkErr` overriding the transport error; otherwise
check `remain := RetryMax - i` and break to `onExhausted` when
`remain ≤ 0`; otherwise drain the response body (when there is one and
no transport error), compute the backoff, sleep, and reenter at `i+1`.
A `none` outcome models a panic inside `CheckRetry` (nil-response
dereference). The trace records the side effects in program order. -/
def doLoop (c : Client) (req : Request) (env : Env)
    (lastResp : Option Response) (lastErr : Option Err) (i : Nat) :
    List Event × Option (Option Response × Option Err) :=
  match req.body.map (fun obtain => obtain i) with
  | some (some e) => ([Event.bodyObtain i], some (lastResp, some e))
  | _ =>
    let evBody : List Event := if req.body.isSome then [Event.bodyObtain i] else []
    let (resp, err) := env.transport i
    match c.CheckRetry (env.ctxErr i) resp err with
    | none => (evBody ++ [Event.transportCall i, Event.policyCheck i], none)
    | some (checkOK, checkErr) =>
      let ev0 := evBody ++ [Event.transportCall i, Event.policyCheck i]
      if !checkOK then
        (ev0, some (resp, match checkErr with | some ce => some ce | none => err))
      else
        if h : c.RetryMax - (i : Int) ≤ 0 then
          let (ev1, out) := onExhausted c req resp err
          (ev0 ++ ev1, some out)
        else
          let evDrain : List Event :=
            if err = none ∧ resp.isSome then [Event.drain i] else []
          let wait := c.Backoff c.RetryWaitMin c.RetryWaitMax i resp
          let (evRest, out) := doLoop c req env resp err (i + 1)
          (ev0 ++ evDrain ++ [Event.backoffCompute i wait, Event.sleep wait] ++ evRest, out)
termination_by (c.RetryMax - (i : Int)).toNat
decreasing_by
  omega

/-- `Client.Do`: the retry loop entered at attempt 0 with nil `resp` and
`err` (metrics, tracing, logging and the request modifier are
side-effect-only and not modelled). -/
def Client.Do (c : Client) (req : Request) (env : Env) :
    List Event × Option (Option Response × Option Err) :=
  doLoop c req env none none 0

/-- Number of transport invocations (attempts) recorded in a trace. -/
def countTransport (tr : List Event) : Nat :=
  tr.countP (fun e => match e with | Event.transportCall _ => true | _ => false)

/-- Number of backoff sleeps recorded in a trace. -/
def countSleep (tr : List Event) : Nat :=
  tr.countP (fun e => match e with | Event.sleep _ => true | _ => false)

/-- Number of `ErrorHandler` invocations recorded in a trace. -/
def countHandler (tr : List Event) : Nat :=
  tr.countP (fun e => match e with | Event.errorHandlerCall _ => true | _ => false)

/-- The payload values `NewRequest` classifies (the source's dynamic
type switch over `rawBody`). Streams are byte lists; stateful readers
carry their current read position. `readerFunc f` is a caller-supplied
factory whose `k`-th invocation yields the stream `f k`; the idempotence
of caller-owned payloads (factories, seekable streams not mutated
externally) is the caller contract the spec states. -/
inductive RawBody where
  | readerFunc (f : Nat → List Nat)
  | byteSlice (buf : List Nat)
  | bytesBuffer (buf : List Nat)
  | bytesReader (content : List Nat) (pos : Nat)
  | readSeeker (content : List Nat)
  | oneShot (content : List Nat) (pos : Nat)

/-- The stored `body ReaderFunc` produced by classification: either the
caller's own factory (invoked fresh each call), a fresh
`bytes.NewReader` over bytes fixed at construction, or a
`Seek(0, 0)`-then-read of the underlying seekable stream. -/
inductive BodyFactory where
  | fromFunc (f : Nat → List Nat)
  | fromBuf (buf : List Nat)
  | seeker (content : List Nat)

/-- The classification `NewRequest` performs: a `ReaderFunc` (or the
equivalent raw function type) is stored as-is; a byte slice or
`*bytes.Buffer` is re-wrapped over its own storage; a `*bytes.Reader`
or plain `io.Reader` is fully read from its current position into a
buffer once and replayed from that copy; an `io.ReadSeeker` is rewound
to offset 0 on every invocation. Content-length computation and
construction-time errors are elided (the claim concerns successfully
constructed requests). -/
def NewRequestBody : RawBody → BodyFactory
  | RawBody.readerFunc f => BodyFactory.fromFunc f
  | RawBody.byteSlice buf => BodyFactory.fromBuf buf
  | RawBody.bytesBuffer buf => BodyFactory.fromBuf buf
  | RawBody.bytesReader content pos => BodyFactory.fromBuf (content.drop pos)
  | RawBody.readSeeker content => BodyFactory.seeker content
  | RawBody.oneShot content pos => BodyFactory.fromBuf (content.drop pos)

/-- Content of the stream yielded by the `k`-th invocation of the stored
factory. -/
def obtainBody : BodyFactory → Nat → List Nat
  | BodyFactory.fromFunc f, k => f k
  | BodyFactory.fromBuf buf, _ => buf
  | BodyFactory.seeker content, _ => content

end Retryablehttp

namespace Retryablehttp

/-! ## Claim theorems: standalone components -/

/-- C1 counterexample: with no cancellation and no transport error, a
response with status code 600 — outside the claimed range `[500, 600)`
and not 0 — is nevertheless retried by `DefaultRetryPolicy` (the source
has no upper bound on the status: its comment says it also catches 999). -/
theorem defaultRetryPolicy_status600_counterexample :
    DefaultRetryPolicy none (some { statusCode := 600 }) none = some (true, none) ∧
    ¬((600 : Int) = 0 ∨ (500 ≤ (600 : Int) ∧ (600 : Int) < 600 ∧ (600 : Int) ≠ 501)) := by
  constructor
  · rfl
  · decide

/-- C1 (amended): whenever `DefaultRetryPolicy` returns a decision,
`shouldRetry = true` exactly when either a transport error occurred with
the context not cancelled, or there is a response whose status code is 0
or is at least 500 and differs from 501 (no upper bound); and whenever
the context's cancellation has fired, the decision is "do not retry"
with the context's error as the override, regardless of any transport
error. (Status codes 200, 404 and 501 fall in the "do not retry" side of
the biconditional.) -/
theorem defaultRetryPolicy_characterization (ce : Option Err) (resp : Option Response)
    (err : Option Err) (b : Bool) (oe : Option Err)
    (h : DefaultRetryPolicy ce resp err = some (b, oe)) :
    (b = true ↔ (ce = none ∧ err.isSome = true) ∨
      (ce = none ∧ err = none ∧ ∃ r, resp = some r ∧
        (r.statusCode = 0 ∨ (500 ≤ r.statusCode ∧ r.statusCode ≠ 501)))) ∧
    (∀ c, ce = some c → b = false ∧ oe = some c) := by
  cases ce with
  | some c =>
    simp only [DefaultRetryPolicy, Option.some.injEq, Prod.mk.injEq] at h
    obtain ⟨hb, ho⟩ := h
    constructor
    · simp [← hb]
    · intro c' hc'
      cases hc'
      exact ⟨hb.symm, ho.symm⟩
  | none =>
    cases err with
    | some e =>
      simp only [DefaultRetryPolicy] at h
      cases h
      simp
    | none =>
      cases resp with
      | none => simp [DefaultRetryPolicy] at h
      | some r =>
        simp only [DefaultRetryPolicy] at h
        by_cases hcond : r.statusCode = 0 ∨ (500 ≤ r.statusCode ∧ r.statusCode ≠ 501)
        · rw [if_pos hcond] at h
          cases h
          simp [hcond]
        · rw [if_neg hcond] at h
          cases h
          simp [hcond]

/-- C1 witness: the amended characterization applied at the concrete
input (cancellation fired, status 200, no transport error); the
cancellation clause yields "do not retry" with the context error as
override. -/
theorem defaultRetryPolicy_characterization_witness :
    false = false ∧ (some (Err.simple "canceled") : Option Err) = some (Err.simple "canceled") :=
  (defaultRetryPolicy_characterization (some (Err.simple "canceled"))
      (some { statusCode := 200 }) none false (some (Err.simple "canceled")) rfl).2
    (Err.simple "canceled") rfl

/-- A configuration supplying a positive `RetryMax` (2) and leaving every
other setting absent (zero durations, nil callbacks). -/
def configRetryMaxOnly : Config :=
  { RetryMax := 2, RetryWaitMin := 0, RetryWaitMax := 0,
    CheckRetry := none, Backoff := none, ErrorHandler := none }

/-- C4: the failing input for the claimed independent default
substitution. `Config.init` guards the `RetryWaitMin` default with
`RetryMax <= 0` instead of `RetryWaitMin <= 0`, so a config with
`RetryMax = 2` and absent min wait keeps `RetryWaitMin = 0` — not the
claimed 1s default — while the max wait, retry policy, backoff and
retry-max settings are substituted (or kept) as the claim states. -/
theorem config_init_minwait_not_defaulted :
    (Config.init configRetryMaxOnly).RetryWaitMin = 0 ∧
    (Config.init configRetryMaxOnly).RetryWaitMin ≠ defaultRetryWaitMin ∧
    (Config.init configRetryMaxOnly).RetryWaitMax = defaultRetryWaitMax ∧
    (Config.init configRetryMaxOnly).CheckRetry = some DefaultRetryPolicy ∧
    (Config.init configRetryMaxOnly).Backoff = some DefaultBackoff ∧
    (Config.init configRetryMaxOnly).RetryMax = 2 := by
  refine ⟨rfl, by decide, rfl, rfl, rfl, rfl⟩

/-- C7: `DefaultBackoff` returns `min(minWait * 2^n, maxWait)` (the
clamp covering the overflow of the exponentiation, see the definition's
comment), and in particular `backoff(1s, 30s, 0) = 1s`,
`backoff(1s, 30s, 4) = 16s`, and `backoff(1s, 30s, 10) = 30s`. -/
theorem defaultBackoff_min_formula :
    (∀ (mn mx : Duration) (n : Nat) (r : Option Response),
        DefaultBackoff mn mx n r = Min.min (mn * 2 ^ n) mx) ∧
    DefaultBackoff 1000000000 30000000000 0 none = 1000000000 ∧
    DefaultBackoff 1000000000 30000000000 4 none = 16000000000 ∧
    DefaultBackoff 1000000000 30000000000 10 none = 30000000000 := by
  refine ⟨fun mn mx n r => ?_, by decide, by decide, by decide⟩
  show (if 2 ^ n * mn > mx then mx else 2 ^ n * mn) = Min.min (mn * 2 ^ n) mx
  rw [mul_comm mn (2 ^ n)]
  rcases le_or_lt (2 ^ n * mn) mx with h | h
  · rw [if_neg (not_lt.mpr h), min_eq_left h]
  · rw [if_pos h, min_eq_right h.le]

/-- C8: `LinearJitterBackoff` returns exactly `minWait * (n+1)` when
`maxWait ≤ minWait` (in particular `backoff(1s, 1s, 2) = 3s`), and
otherwise, for every draw in `[0, 1)`, returns `(minWait + off) * (n+1)`
for an offset `off ∈ [0, maxWait - minWait)`, so the result lies in
`[minWait * (n+1), maxWait * (n+1)]`. -/
theorem linearJitterBackoff_spec :
    (∀ (mn mx : Duration) (n : Nat) (draw : ℚ), mx ≤ mn →
        LinearJitterBackoff mn mx n draw = mn * ((n : Int) + 1)) ∧
    LinearJitterBackoff 1000000000 1000000000 2 0 = 3000000000 ∧
    (∀ (mn mx : Duration) (n : Nat) (draw : ℚ), mn < mx → 0 ≤ draw → draw < 1 →
        ∃ off : Int, 0 ≤ off ∧ off < mx - mn ∧
          LinearJitterBackoff mn mx n draw = (mn + off) * ((n : Int) + 1) ∧
          mn * ((n : Int) + 1) ≤ LinearJitterBackoff mn mx n draw ∧
          LinearJitterBackoff mn mx n draw ≤ mx * ((n : Int) + 1)) := by
  refine ⟨fun mn mx n draw h => ?_, by decide, fun mn mx n draw hlt h0 h1 => ?_⟩
  · show (if mx ≤ mn then mn * ((n + 1 : Nat) : Int) else _) = mn * ((n : Int) + 1)
    rw [if_pos h]
    push_cast
    ring
  · have hd : (0 : ℚ) < (mx : ℚ) - (mn : ℚ) := by
      rw [sub_pos]
      exact_mod_cast hlt
    refine ⟨⌊draw * ((mx : ℚ) - (mn : ℚ))⌋, ?_, ?_, ?_, ?_, ?_⟩
    · exact Int.floor_nonneg.mpr (mul_nonneg h0 hd.le)
    · rw [Int.floor_lt]
      push_cast
      exact mul_lt_of_lt_one_left hd h1
    · show (if mx ≤ mn then _ else (⌊draw * ((mx : ℚ) - (mn : ℚ))⌋ + mn) * ((n + 1 : Nat) : Int))
          = (mn + ⌊draw * ((mx : ℚ) - (mn : ℚ))⌋) * ((n : Int) + 1)
      rw [if_neg (not_le.mpr hlt)]
      push_cast
      ring
    · show mn * ((n : Int) + 1) ≤
        (if mx ≤ mn then mn * ((n + 1 : Nat) : Int)
         else (⌊draw * ((mx : ℚ) - (mn : ℚ))⌋ + mn) * ((n + 1 : Nat) : Int))
      rw [if_neg (not_le.mpr hlt)]
      have hoff : (0 : Int) ≤ ⌊draw * ((mx : ℚ) - (mn : ℚ))⌋ :=
        Int.floor_nonneg.mpr (mul_nonneg h0 hd.le)
      have hle : mn ≤ ⌊draw * ((mx : ℚ) - (mn : ℚ))⌋ + mn := by linarith
      have hnn : (0 : Int) ≤ (n : Int) + 1 := by positivity
      have hmul : mn * ((n : Int) + 1) ≤
          (⌊draw * ((mx : ℚ) - (mn : ℚ))⌋ + mn) * ((n : Int) + 1) :=
        mul_le_mul_of_nonneg_right hle hnn
      calc mn * ((n : Int) + 1)
          ≤ (⌊draw * ((mx : ℚ) - (mn : ℚ))⌋ + mn) * ((n : Int) + 1) := hmul
        _ = (⌊draw * ((mx : ℚ) - (mn : ℚ))⌋ + mn) * ((n + 1 : Nat) : Int) := by push_cast; ring
    · show (if mx ≤ mn then mn * ((n + 1 : Nat) : Int)
         else (⌊draw * ((mx : ℚ) - (mn : ℚ))⌋ + mn) * ((n + 1 : Nat) : Int)) ≤
        mx * ((n : Int) + 1)
      rw [if_neg (not_le.mpr hlt)]
      have hoff : ⌊draw * ((mx : ℚ) - (mn : ℚ))⌋ < mx - mn := by
        rw [Int.floor_lt]
        push_cast
        exact mul_lt_of_lt_one_left hd h1
      have hle : ⌊draw * ((mx : ℚ) - (mn : ℚ))⌋ + mn ≤ mx := by linarith
      have hnn : (0 : Int) ≤ (n : Int) + 1 := by positivity
      have hmul : (⌊draw * ((mx : ℚ) - (mn : ℚ))⌋ + mn) * ((n : Int) + 1) ≤
          mx * ((n : Int) + 1) :=
        mul_le_mul_of_nonneg_right hle hnn
      calc (⌊draw * ((mx : ℚ) - (mn : ℚ))⌋ + mn) * ((n + 1 : Nat) : Int)
          = (⌊draw * ((mx : ℚ) - (mn : ℚ))⌋ + mn) * ((n : Int) + 1) := by push_cast; ring
        _ ≤ mx * ((n : Int) + 1) := hmul

/-- C8 witness: the degenerate branch applied at
`min = max = 1s, attempt 2`; the hypothesis `max ≤ min` holds by
reflexivity and the claimed value `3s` is obtained. -/
theorem linearJitterBackoff_spec_witness :
    LinearJitterBackoff 1000000000 1000000000 2 0 = 3000000000 :=
  linearJitterBackoff_spec.1 1000000000 1000000000 2 0 (le_refl _)

/-- C9: for every payload variant, the factory stored at request
construction yields byte-identical content on every invocation, under
the caller contract that a supplied factory is idempotent (caller-owned
seekable payloads are modelled with their content fixed, which is the
"not mutated externally" precondition). -/
theorem newRequestBody_replayable (rb : RawBody)
    (hfac : ∀ f, rb = RawBody.readerFunc f → ∀ j k : Nat, f j = f k) :
    ∀ j k : Nat, obtainBody (NewRequestBody rb) j = obtainBody (NewRequestBody rb) k := by
  intro j k
  cases rb with
  | readerFunc f => exact hfac f rfl j k
  | byteSlice buf => rfl
  | bytesBuffer buf => rfl
  | bytesReader content pos => rfl
  | readSeeker content => rfl
  | oneShot content pos => rfl

/-- C9 witness: a byte-slice payload yields the same bytes on
invocations 0 and 5 (the factory-idempotence hypothesis is vacuous for
this variant). -/
theorem newRequestBody_replayable_witness :
    obtainBody (NewRequestBody (RawBody.byteSlice [1, 2, 3])) 0 =
      obtainBody (NewRequestBody (RawBody.byteSlice [1, 2, 3])) 5 :=
  newRequestBody_replayable (RawBody.byteSlice [1, 2, 3]) (fun _ h => nomatch h) 0 5

/-! ## Claim theorems: the execution loop -/

/-- A client with the default configuration (`RetryMax = 4`, 1s/30s
waits, default policy and backoff, no custom error handler). -/
def defaultClient : Client :=
  { RetryMax := defaultRetryMax, RetryWaitMin := defaultRetryWaitMin,
    RetryWaitMax := defaultRetryWaitMax, CheckRetry := DefaultRetryPolicy,
    Backoff := DefaultBackoff, ErrorHandler := none }

/-- A request without a body. -/
def reqNoBody : Request :=
  { method := "GET", url := "http://example.com", body := none }

/-- A body factory that fails on every invocation. -/
def bodyAlwaysFails : Nat → Option Err := fun _ => some (Err.simple "payload")

/-- A request whose body factory fails on every invocation. -/
def reqBadBody : Request :=
  { method := "GET", url := "http://example.com", body := some bodyAlwaysFails }

/-- A transport that always answers 200, with no cancellation. -/
def envOk : Env :=
  { transport := fun _ => (some { statusCode := 200 }, none), ctxErr := fun _ => none }

/-- A transport that always answers 503, with no cancellation. -/
def env503 : Env :=
  { transport := fun _ => (some { statusCode := 503 }, none), ctxErr := fun _ => none }

/-- C6: if obtaining a fresh body stream fails at attempt `i`, the loop
returns at once with that error: the only event recorded from attempt
`i` on is the body rewind itself — the transport is not invoked, the
retry policy is not consulted, no backoff or sleep occurs, and there is
no further attempt. (The response component is the loop-carried previous
response; see C10.) -/
theorem doLoop_body_error (c : Client) (req : Request) (env : Env)
    (lastResp : Option Response) (lastErr : Option Err) (i : Nat)
    (ob : Nat → Option Err) (e : Err)
    (hb : req.body = some ob) (he : ob i = some e) :
    doLoop c req env lastResp lastErr i = ([Event.bodyObtain i], some (lastResp, some e)) := by
  rw [doLoop]
  simp [hb, he]

/-- C6 witness: with a body factory failing at attempt 0, the run stops
after the rewind and surfaces the payload error. -/
theorem doLoop_body_error_witness :
    doLoop defaultClient reqBadBody envOk none none 0 =
      ([Event.bodyObtain 0], some (none, some (Err.simple "payload"))) :=
  doLoop_body_error defaultClient reqBadBody envOk none none 0
    bodyAlwaysFails (Err.simple "payload") rfl rfl

/-- C5: when the retry policy declines to retry at attempt `i`, the loop
returns the attempt's response unmodified, paired with the policy's
override error when that override is non-nil and with the attempt's
transport error otherwise. -/
theorem doLoop_terminal_return (c : Client) (req : Request) (env : Env)
    (lastResp : Option Response) (lastErr : Option Err) (i : Nat)
    (resp : Option Response) (err checkErr : Option Err)
    (hb : ∀ ob, req.body = some ob → ob i = none)
    (ht : env.transport i = (resp, err))
    (hc : c.CheckRetry (env.ctxErr i) resp err = some (false, checkErr)) :
    (checkErr = none → (doLoop c req env lastResp lastErr i).2 = some (resp, err)) ∧
    (∀ ce, checkErr = some ce →
        (doLoop c req env lastResp lastErr i).2 = some (resp, some ce)) := by
  rw [doLoop]
  cases hreq : req.body with
  | none =>
    cases checkErr with
    | none => simp [hreq, ht, hc]
    | some ce => simp [hreq, ht, hc]
  | some ob =>
    have hob := hb ob hreq
    cases checkErr with
    | none => simp [hreq, hob, ht, hc]
    | some ce => simp [hreq, hob, ht, hc]

/-- C5 witness: a 200 response under the default policy is returned
as-is with a nil error. -/
theorem doLoop_terminal_return_witness :
    (doLoop defaultClient reqNoBody envOk none none 0).2 =
      some (some { statusCode := 200 }, none) :=
  (doLoop_terminal_return defaultClient reqNoBody envOk none none 0
    (some { statusCode := 200 }) none none (fun _ h => nomatch h) rfl rfl).1 rfl

/-- C3: when the budget is exhausted at attempt `i` (`RetryMax - i ≤ 0`)
with the policy still requesting a retry: without a configured
`ErrorHandler`, the loop closes the last response body when one is
present and returns a nil response with the giving-up error carrying the
request method, URL and `RetryMax + 1` total attempts; with a configured
handler, the handler is invoked exactly once, with the last response,
last transport error and `RetryMax + 1`, and its result is the outcome. -/
theorem doLoop_exhausted (c : Client) (req : Request) (env : Env)
    (lastResp : Option Response) (lastErr : Option Err) (i : Nat)
    (resp : Option Response) (err checkErr : Option Err)
    (hb : ∀ ob, req.body = some ob → ob i = none)
    (ht : env.transport i = (resp, err))
    (hc : c.CheckRetry (env.ctxErr i) resp err = some (true, checkErr))
    (hr : c.RetryMax - (i : Int) ≤ 0) :
    (c.ErrorHandler = none →
        (doLoop c req env lastResp lastErr i).2 =
          some (none, some (Err.givingUp req.method req.url (c.RetryMax + 1))) ∧
        (resp.isSome = true →
          Event.closeBody ∈ (doLoop c req env lastResp lastErr i).1)) ∧
    (∀ h, c.ErrorHandler = some h →
        (doLoop c req env lastResp lastErr i).2 = some (h resp err (c.RetryMax + 1)) ∧
        countHandler (doLoop c req env lastResp lastErr i).1 = 1) := by
  rw [doLoop]
  cases hreq : req.body with
  | none =>
    refine ⟨fun heh => ⟨?_, fun hs => ?_⟩, fun h hhand => ⟨?_, ?_⟩⟩
    · simp [hreq, ht, hc, hr, onExhausted, heh]
    · cases resp with
      | none => simp at hs
      | some r => simp [hreq, ht, hc, hr, onExhausted, heh]
    · simp [hreq, ht, hc, hr, onExhausted, hhand]
    · simp [hreq, ht, hc, hr, onExhausted, hhand, countHandler]
  | some ob =>
    have hob := hb ob hreq
    refine ⟨fun heh => ⟨?_, fun hs => ?_⟩, fun h hhand => ⟨?_, ?_⟩⟩
    · simp [hreq, hob, ht, hc, hr, onExhausted, heh]
    · cases resp with
      | none => simp at hs
      | some r => simp [hreq, hob, ht, hc, hr, onExhausted, heh]
    · simp [hreq, hob, ht, hc, hr, onExhausted, hhand]
    · simp [hreq, hob, ht, hc, hr, onExhausted, hhand, countHandler]

/-- A default-configured client whose retry budget is zero. -/
def clientZeroRetries : Client :=
  { RetryMax := 0, RetryWaitMin := defaultRetryWaitMin,
    RetryWaitMax := defaultRetryWaitMax, CheckRetry := DefaultRetryPolicy,
    Backoff := DefaultBackoff, ErrorHandler := none }

/-- C3 witness: a 503 on attempt 0 with a zero budget and no custom
handler yields `(nil, giving up after 1 attempts)`, and the 503
response body is closed. -/
theorem doLoop_exhausted_witness :
    (doLoop clientZeroRetries reqNoBody env503 none none 0).2 =
      some (none, some (Err.givingUp "GET" "http://example.com" 1)) ∧
    Event.closeBody ∈ (doLoop clientZeroRetries reqNoBody env503 none none 0).1 :=
  ⟨((doLoop_exhausted clientZeroRetries reqNoBody env503 none none 0
      (some { statusCode := 503 }) none none (fun _ h => nomatch h) rfl rfl
      (by decide)).1 rfl).1,
   ((doLoop_exhausted clientZeroRetries reqNoBody env503 none none 0
      (some { statusCode := 503 }) none none (fun _ h => nomatch h) rfl rfl
      (by decide)).1 rfl).2 rfl⟩

/-- A body factory that succeeds at attempt 0 and fails from attempt 1
on. -/
def bodyFailsOnRetry : Nat → Option Err := fun i =>
  if i = 0 then none else some (Err.simple "body")

/-- A request whose body factory fails from the first retry on. -/
def reqRetryBadBody : Request :=
  { method := "GET", url := "http://example.com", body := some bodyFailsOnRetry }

/-- A transport that always fails the connection, with no
cancellation. -/
def envConnFail : Env :=
  { transport := fun _ => (none, some (Err.simple "conn")), ctxErr := fun _ => none }

/-- C10: if the body factory fails at retry attempt 1 after attempt 0
produced a response `r` that the policy asked to retry (with budget
remaining), the run returns the stale attempt-0 response `r` — drained,
and thereby closed, before the retry, as the `drain 0` event preceding
`bodyObtain 1` records — as a non-nil response paired with the non-nil
body error. -/
theorem do_stale_response (c : Client) (req : Request) (env : Env)
    (ob : Nat → Option Err) (r : Response) (e : Err) (ce : Option Err)
    (hb : req.body = some ob) (h0 : ob 0 = none) (h1 : ob 1 = some e)
    (ht : env.transport 0 = (some r, none))
    (hc : c.CheckRetry (env.ctxErr 0) (some r) none = some (true, ce))
    (hm : 0 < c.RetryMax) :
    c.Do req env =
      ([Event.bodyObtain 0, Event.transportCall 0, Event.policyCheck 0, Event.drain 0,
        Event.backoffCompute 0 (c.Backoff c.RetryWaitMin c.RetryWaitMax 0 (some r)),
        Event.sleep (c.Backoff c.RetryWaitMin c.RetryWaitMax 0 (some r)),
        Event.bodyObtain 1],
       some (some r, some e)) := by
  have hr : ¬(c.RetryMax - ((0 : Nat) : Int) ≤ 0) := by omega
  have hr' : ¬(c.RetryMax ≤ 0) := by omega
  rw [Client.Do, doLoop]
  simp [hb, h0, ht, hc, hr, hr']
  rw [doLoop]
  simp [hb, h1]

/-- C10 witness: under the default configuration (default policy and
backoff, no handler, no cancellation), a 503 on attempt 0 followed by a
body-factory failure on the retry yields the stale, already-drained 503
response together with the body error — a non-nil response paired with a
non-nil error outside the cancellation case. -/
theorem do_stale_response_witness :
    defaultClient.Do reqRetryBadBody env503 =
      ([Event.bodyObtain 0, Event.transportCall 0, Event.policyCheck 0, Event.drain 0,
        Event.backoffCompute 0
          (defaultClient.Backoff defaultClient.RetryWaitMin defaultClient.RetryWaitMax 0
            (some { statusCode := 503 })),
        Event.sleep
          (defaultClient.Backoff defaultClient.RetryWaitMin defaultClient.RetryWaitMax 0
            (some { statusCode := 503 })),
        Event.bodyObtain 1],
       some (some { statusCode := 503 }, some (Err.simple "body"))) :=
  do_stale_response defaultClient reqRetryBadBody env503 bodyFailsOnRetry
    { statusCode := 503 } (Err.simple "body") none rfl rfl rfl rfl rfl (by decide)

/-- Transport-invocation counting distributes over trace
concatenation. -/
theorem countTransport_append (a b : List Event) :
    countTransport (a ++ b) = countTransport a + countTransport b := by
  simp [countTransport, List.countP_append]

/-- Sleep counting distributes over trace concatenation. -/
theorem countSleep_append (a b : List Event) :
    countSleep (a ++ b) = countSleep a + countSleep b := by
  simp [countSleep, List.countP_append]

/-- Trace bounds for the loop entered at attempt `i`: it records at most
`(RetryMax - i).toNat + 1` transport invocations and at most
`(RetryMax - i).toNat` sleeps, and every backoff computation belongs to
an attempt `j` with `j < RetryMax` — never to an attempt whose remaining
budget `RetryMax - j` is already exhausted. -/
theorem doLoop_trace_bound (c : Client) (req : Request) (env : Env)
    (lastResp : Option Response) (lastErr : Option Err) (i : Nat) :
    countTransport (doLoop c req env lastResp lastErr i).1
        ≤ (c.RetryMax - (i : Int)).toNat + 1 ∧
    countSleep (doLoop c req env lastResp lastErr i).1 ≤ (c.RetryMax - (i : Int)).toNat ∧
    (∀ j w, Event.backoffCompute j w ∈ (doLoop c req env lastResp lastErr i).1 →
      (j : Int) < c.RetryMax) := by
  rcases htr : env.transport i with ⟨resp, err⟩
  by_cases hfail : ∃ ob e, req.body = some ob ∧ ob i = some e
  · obtain ⟨ob, e, hreq, hob⟩ := hfail
    have hstep : (doLoop c req env lastResp lastErr i).1 = [Event.bodyObtain i] := by
      rw [doLoop]; simp [hreq, hob]
    rw [hstep]
    exact ⟨by simp [countTransport], by simp [countSleep], by simp⟩
  · have hok : ∀ ob, req.body = some ob → ob i = none := by
      intro ob hreq
      cases hob : ob i with
      | none => rfl
      | some e => exact absurd ⟨ob, e, hreq, hob⟩ hfail
    cases hck : c.CheckRetry (env.ctxErr i) resp err with
    | none =>
      have hstep : (doLoop c req env lastResp lastErr i).1 =
          (if req.body.isSome then [Event.bodyObtain i] else []) ++
            [Event.transportCall i, Event.policyCheck i] := by
        rw [doLoop]
        cases hreq : req.body with
        | none => simp [hreq, htr, hck]
        | some ob => simp [hreq, hok ob hreq, htr, hck]
      rw [hstep]
      by_cases hP : req.body.isSome = true <;>
        exact ⟨by simp [hP, countTransport, List.countP_cons],
          by simp [hP, countSleep, List.countP_cons], by simp [hP]⟩
    | some pr =>
      rcases pr with ⟨checkOK, checkErr⟩
      cases checkOK with
      | false =>
        have hstep : (doLoop c req env lastResp lastErr i).1 =
            (if req.body.isSome then [Event.bodyObtain i] else []) ++
              [Event.transportCall i, Event.policyCheck i] := by
          rw [doLoop]
          cases hreq : req.body with
          | none => simp [hreq, htr, hck]
          | some ob => simp [hreq, hok ob hreq, htr, hck]
        rw [hstep]
        by_cases hP : req.body.isSome = true <;>
          exact ⟨by simp [hP, countTransport, List.countP_cons],
            by simp [hP, countSleep, List.countP_cons], by simp [hP]⟩
      | true =>
        by_cases hr : c.RetryMax - (i : Int) ≤ 0
        · have hstep : (doLoop c req env lastResp lastErr i).1 =
              (if req.body.isSome then [Event.bodyObtain i] else []) ++
                [Event.transportCall i, Event.policyCheck i] ++
                (onExhausted c req resp err).1 := by
            rw [doLoop]
            cases hreq : req.body with
            | none => simp [hreq, htr, hck, hr]
            | some ob => simp [hreq, hok ob hreq, htr, hck, hr]
          have hex : countTransport (onExhausted c req resp err).1 = 0 ∧
              countSleep (onExhausted c req resp err).1 = 0 ∧
              ∀ j w, Event.backoffCompute j w ∉ (onExhausted c req resp err).1 := by
            unfold onExhausted
            cases c.ErrorHandler <;> cases resp <;>
              exact ⟨by simp [countTransport], by simp [countSleep], by simp⟩
          obtain ⟨hex1, hex2, hex3⟩ := hex
          rw [hstep]
          refine ⟨?_, ?_, ?_⟩
          · rw [countTransport_append, countTransport_append, hex1]
            by_cases hP : req.body.isSome = true <;>
              simp [hP, countTransport, List.countP_cons]
          · rw [countSleep_append, countSleep_append, hex2]
            by_cases hP : req.body.isSome = true <;>
              simp [hP, countSleep, List.countP_cons]
          · intro j w hmem
            rcases List.mem_append.mp hmem with hA | hEx
            · exfalso
              revert hA
              split <;> simp
            · exact absurd hEx (hex3 j w)
        · obtain ⟨iht, ihs, ihb⟩ := doLoop_trace_bound c req env resp err (i + 1)
          rcases hrec : doLoop c req env resp err (i + 1) with ⟨evRest, out⟩
          rw [hrec] at iht ihs ihb
          have hstep : (doLoop c req env lastResp lastErr i).1 =
              (if req.body.isSome then [Event.bodyObtain i] else []) ++
                [Event.transportCall i, Event.policyCheck i] ++
                ((if err = none ∧ resp.isSome then [Event.drain i] else []) ++
                  (Event.backoffCompute i (c.Backoff c.RetryWaitMin c.RetryWaitMax i resp) ::
                    Event.sleep (c.Backoff c.RetryWaitMin c.RetryWaitMax i resp) :: evRest)) := by
            rw [doLoop]
            cases hreq : req.body with
            | none => simp [hreq, htr, hck, hr, hrec]
            | some ob => simp [hreq, hok ob hreq, htr, hck, hr, hrec]
          rw [hstep]
          have iht' : countTransport evRest ≤
              (c.RetryMax - (((i + 1) : Nat) : Int)).toNat + 1 := iht
          have ihs' : countSleep evRest ≤ (c.RetryMax - (((i + 1) : Nat) : Int)).toNat := ihs
          have ihb' : ∀ j w, Event.backoffCompute j w ∈ evRest → (j : Int) < c.RetryMax := ihb
          refine ⟨?_, ?_, ?_⟩
          · rw [countTransport_append, countTransport_append, countTransport_append]
            have h1 : countTransport
                (if req.body.isSome = true then [Event.bodyObtain i] else []) = 0 := by
              split <;> rfl
            have h2 : countTransport [Event.transportCall i, Event.policyCheck i] = 1 := rfl
            have h3 : countTransport
                (if err = none ∧ resp.isSome = true then [Event.drain i] else []) = 0 := by
              split <;> rfl
            have h4 : countTransport
                (Event.backoffCompute i (c.Backoff c.RetryWaitMin c.RetryWaitMax i resp) ::
                  Event.sleep (c.Backoff c.RetryWaitMin c.RetryWaitMax i resp) :: evRest) =
                countTransport evRest := by
              simp [countTransport, List.countP_cons]
            rw [h1, h2, h3, h4]
            omega
          · rw [countSleep_append, countSleep_append, countSleep_append]
            have h1 : countSleep
                (if req.body.isSome = true then [Event.bodyObtain i] else []) = 0 := by
              split <;> rfl
            have h2 : countSleep [Event.transportCall i, Event.policyCheck i] = 0 := rfl
            have h3 : countSleep
                (if err = none ∧ resp.isSome = true then [Event.drain i] else []) = 0 := by
              split <;> rfl
            have h4 : countSleep
                (Event.backoffCompute i (c.Backoff c.RetryWaitMin c.RetryWaitMax i resp) ::
                  Event.sleep (c.Backoff c.RetryWaitMin c.RetryWaitMax i resp) :: evRest) =
                countSleep evRest + 1 := by
              simp [countSleep, List.countP_cons]
            rw [h1, h2, h3, h4]
            omega
          · intro j w hmem
            rcases List.mem_append.mp hmem with hA | h1
            · exfalso
              revert hA
              split <;> simp
            · rcases List.mem_append.mp h1 with hD | h2
              · exfalso
                revert hD
                split <;> simp
              · rcases List.mem_cons.mp h2 with h4 | h5
                · have h6 : j = i ∧
                      w = c.Backoff c.RetryWaitMin c.RetryWaitMax i resp := by
                    simpa using h4
                  have h7 := h6.1
                  omega
                · rcases List.mem_cons.mp h5 with h6 | h7
                  · exact absurd h6 (by simp)
                  · exact ihb' j w h7
termination_by (c.RetryMax - (i : Int)).toNat
decreasing_by omega

/-- C2: with retry budget `m = RetryMax ≥ 0` — termination of the loop
is built into the model, which is a total function by well-founded
recursion on the remaining budget — a run of `Do` performs at most
`m + 1` transport attempts and sleeps at most `m` times, and a backoff
is computed only at attempts `j` with `j < m`: at an attempt whose
remaining budget `m - j ≤ 0` the loop exits to the exhausted path
without computing a backoff or sleeping. -/
theorem do_attempt_bound (c : Client) (req : Request) (env : Env)
    (hm : 0 ≤ c.RetryMax) :
    countTransport (c.Do req env).1 ≤ (c.RetryMax + 1).toNat ∧
    countSleep (c.Do req env).1 ≤ c.RetryMax.toNat ∧
    (∀ j w, Event.backoffCompute j w ∈ (c.Do req env).1 → (j : Int) < c.RetryMax) := by
  obtain ⟨h1, h2, h3⟩ := doLoop_trace_bound c req env none none 0
  rw [Client.Do]
  refine ⟨by omega, by omega, h3⟩

/-- C2 witness: the attempt and sleep bounds applied to the default
client (budget 4) against an always-200 transport. -/
theorem do_attempt_bound_witness :
    countTransport (defaultClient.Do reqNoBody envOk).1 ≤ (defaultClient.RetryMax + 1).toNat ∧
    countSleep (defaultClient.Do reqNoBody envOk).1 ≤ defaultClient.RetryMax.toNat :=
  ⟨(do_attempt_bound defaultClient reqNoBody envOk (by decide)).1,
   (do_attempt_bound defaultClient reqNoBody envOk (by decide)).2.1⟩

end Retryablehttp
